import Mathlib

/-!
Verification of the gastrogram backend (a Django/DRF recipe-sharing service)
against its natural-language specification.  The relevant parts of the code
(`recipes/models.py`, `api/serializers.py`, `api/views.py`,
`recipes/management/commands/import_csv.py`) are shallowly embedded here:
each database table is a list of rows, each serializer is a pure function
from a database state and a request context to a representation, and each
view action is a function from a database state to either an error or a new
database state together with a response.
-/

namespace Gastrogram

/-- Rows of the `User` table (`recipes.models.User`).  The avatar image is
kept as an optional URL string. -/
structure User where
  id : Nat
  email : String
  username : String
  first_name : String
  last_name : String
  avatar : Option String
deriving Repr, DecidableEq

/-- Rows of the `Tag` table (`recipes.models.Tag`). -/
structure Tag where
  id : Nat
  name : String
  slug : String
deriving Repr, DecidableEq

/-- Rows of the `Ingredient` table (`recipes.models.Ingredient`).  The model
declares `name` with `unique=True`; there is no `(name, measurement_unit)`
constraint in `Ingredient.Meta`. -/
structure Ingredient where
  id : Nat
  name : String
  measurement_unit : String
deriving Repr, DecidableEq

/-- Rows of the `Recipe` table (`recipes.models.Recipe`).  `tags` holds the
ids of the rows of the `Recipe.tags` many-to-many join table for this
recipe; `cooking_time` is an `IntegerField`. -/
structure Recipe where
  id : Nat
  author : Nat
  name : String
  image : String
  text : String
  cooking_time : Int
  tags : List Nat
deriving Repr, DecidableEq

/-- Rows of the `RecipeIngredient` join table (`recipes.models.RecipeIngredient`):
`amount` is a `PositiveSmallIntegerField`. -/
structure RecipeIngredient where
  recipe : Nat
  ingredient : Nat
  amount : Nat
deriving Repr, DecidableEq

/-- Rows of the `FavoriteRecipe` join table (`recipes.models.FavoriteRecipe`). -/
structure FavoriteRecipe where
  user : Nat
  recipe : Nat
deriving Repr, DecidableEq

/-- Rows of the `ShoppingCart` join table (`recipes.models.ShoppingCart`). -/
structure ShoppingCart where
  user : Nat
  recipe : Nat
deriving Repr, DecidableEq

/-- Rows of the `Subscription` table (`recipes.models.Subscription`). -/
structure Subscription where
  follower : Nat
  author : Nat
deriving Repr, DecidableEq

/-- The database state: one list of rows per table, in insertion order. -/
structure Db where
  users : List User
  tags : List Tag
  ingredients : List Ingredient
  recipes : List Recipe
  recipe_ingredients : List RecipeIngredient
  favorites : List FavoriteRecipe
  shopping_carts : List ShoppingCart
  subscriptions : List Subscription
deriving Repr, DecidableEq

/-- Foreign-key dereference of `RecipeIngredient.ingredient`.  Under the
referential integrity the database enforces the `find?` always succeeds;
the default row is never reached on real states. -/
def getIngredient (db : Db) (i : Nat) : Ingredient :=
  (db.ingredients.find? (fun g => g.id == i)).getD { id := 0, name := "", measurement_unit := "" }

/-- Foreign-key dereference of a user id (e.g. `Recipe.author`). -/
def getUser (db : Db) (i : Nat) : User :=
  (db.users.find? (fun u => u.id == i)).getD
    { id := 0, email := "", username := "", first_name := "", last_name := "", avatar := none }

/-- Foreign-key dereference of a tag id of `Recipe.tags`. -/
def getTag (db : Db) (i : Nat) : Tag :=
  (db.tags.find? (fun t => t.id == i)).getD { id := 0, name := "", slug := "" }

/-! ## Shopping-cart export (`RecipeViewSet.download_shopping_cart`) -/

/-- Embeds the queryset
`RecipeIngredient.objects.filter(recipe__shopping_cart__user=request.user)`:
the `RecipeIngredient` rows whose recipe has a `ShoppingCart` row for the
requesting user. -/
def cartRows (db : Db) (user : Nat) : List RecipeIngredient :=
  db.recipe_ingredients.filter (fun ri =>
    db.shopping_carts.any (fun c => c.user == user && c.recipe == ri.recipe))

/-- One row of `.values('ingredient__name', 'ingredient__measurement_unit')`
before grouping, still carrying its `amount`. -/
structure CartValueRow where
  ingredient__name : String
  ingredient__measurement_unit : String
  amount : Nat
deriving Repr, DecidableEq

/-- The grouping key of a pre-aggregation row: the pair of values named in
the `.values(...)` clause. -/
def rowKey (r : CartValueRow) : String × String :=
  (r.ingredient__name, r.ingredient__measurement_unit)

/-- The joined rows of the user's cart projected to
`(ingredient__name, ingredient__measurement_unit, amount)`. -/
def cartValueRows (db : Db) (user : Nat) : List CartValueRow :=
  (cartRows db user).map (fun ri =>
    let g := getIngredient db ri.ingredient
    { ingredient__name := g.name
      ingredient__measurement_unit := g.measurement_unit
      amount := ri.amount })

/-- Worker of `groupKeys`: walks the rows keeping every key not already
seen, at its first occurrence. -/
def groupKeysAux (seen : List (String × String)) : List CartValueRow → List (String × String)
  | [] => []
  | r :: rest =>
    if rowKey r ∈ seen then groupKeysAux seen rest
    else rowKey r :: groupKeysAux (rowKey r :: seen) rest

/-- The distinct grouping keys of the rows, each kept at its first
occurrence.  The queryset has no `order_by` and `RecipeIngredient.Meta`
declares no default ordering, so SQL fixes no result order for the
`GROUP BY`; first-occurrence order over the row list stands in for the
order the database happens to return. -/
def groupKeys (l : List CartValueRow) : List (String × String) :=
  groupKeysAux [] l

/-- The `Sum('amount')` aggregate of the rows of one group. -/
def sumAmount (rows : List CartValueRow) (n u : String) : Nat :=
  ((rows.filter (fun x =>
      x.ingredient__name == n && x.ingredient__measurement_unit == u)).map
    (fun x => x.amount)).sum

/-- One row of the queryset after `.annotate(sum=Sum('amount'))`. -/
structure CartAggRow where
  ingredient__name : String
  ingredient__measurement_unit : String
  sum : Nat
deriving Repr, DecidableEq

/-- The grouped and aggregated queryset the view hands to
`ingredients_to_txt`: one row per distinct (name, unit) key, carrying the
sum of the amounts of its group. -/
def download_rows (db : Db) (user : Nat) : List CartAggRow :=
  let rows := cartValueRows db user
  (groupKeys rows).map (fun k =>
    { ingredient__name := k.1
      ingredient__measurement_unit := k.2
      sum := sumAmount rows k.1 k.2 })

/-- The text line one aggregated row renders to inside
`RecipeViewSet.ingredients_to_txt`. -/
def lineOf (i : CartAggRow) : String :=
  let n := i.ingredient__name
  let s := i.sum
  let u := i.ingredient__measurement_unit
  s!"{n} - {s}({u})\n"

/-- Embeds `RecipeViewSet.ingredients_to_txt`: the concatenation of one
line per aggregated row. -/
def ingredients_to_txt (ingredients : List CartAggRow) : String :=
  String.join (ingredients.map lineOf)

/-- Embeds `RecipeViewSet.download_shopping_cart`.  The view only reads
(filter / values / annotate) and wraps the text in an `HttpResponse`; it is
modelled as returning the response body together with the database state,
which it leaves untouched. -/
def download_shopping_cart (db : Db) (user : Nat) : String × Db :=
  (ingredients_to_txt (download_rows db user), db)

/-- The total the specification claims for one (name, unit) pair: the sum
of the `amount` fields of all `RecipeIngredient` rows reachable from the
user's cart whose ingredient carries that name and that unit. -/
def cartTotalFor (db : Db) (user : Nat) (n u : String) : Nat :=
  (((cartRows db user).filter (fun ri =>
      (getIngredient db ri.ingredient).name == n &&
      (getIngredient db ri.ingredient).measurement_unit == u)).map
    (fun ri => ri.amount)).sum

/-! ## Serializers: user and recipe representations -/

/-- Embeds `UserSerializer.get_is_subscribed`: for an anonymous request
(`request.user.is_authenticated` is false, modelled as `none`) the flag is
false; otherwise it asks whether a `Subscription` row with this author and
the requesting follower exists (`object.author.filter(follower=request.user
).exists()`). -/
def get_is_subscribed (db : Db) (requester : Option Nat) (obj : User) : Bool :=
  match requester with
  | none => false
  | some u => db.subscriptions.any (fun s => s.author == obj.id && s.follower == u)

/-- The representation `UserSerializer` produces (`Meta.fields` order:
email, id, username, first_name, last_name, is_subscribed, avatar). -/
structure UserRepr where
  email : String
  id : Nat
  username : String
  first_name : String
  last_name : String
  is_subscribed : Bool
  avatar : Option String
deriving Repr, DecidableEq

/-- Embeds `UserSerializer` serialization of one user. -/
def UserSerializer_data (db : Db) (requester : Option Nat) (obj : User) : UserRepr :=
  { email := obj.email
    id := obj.id
    username := obj.username
    first_name := obj.first_name
    last_name := obj.last_name
    is_subscribed := get_is_subscribed db requester obj
    avatar := obj.avatar }

/-- The representation `IngredientRecipeAllSerializer` produces for one
`RecipeIngredient` row: id, name and measurement_unit are read through the
`ingredient` foreign key, `amount` from the row itself. -/
structure IngredientAmountRepr where
  id : Nat
  name : String
  measurement_unit : String
  amount : Nat
deriving Repr, DecidableEq

/-- The `RecipeIngredient` rows of one recipe: the reverse foreign key
`recipe.recipes` (`related_name='recipes'` on `RecipeIngredient.recipe`). -/
def recipeIngredientRows (db : Db) (r : Nat) : List RecipeIngredient :=
  db.recipe_ingredients.filter (fun ri => ri.recipe == r)

/-- Embeds `IngredientRecipeAllSerializer` on one row. -/
def IngredientRecipeAllSerializer_data (db : Db) (ri : RecipeIngredient) : IngredientAmountRepr :=
  let g := getIngredient db ri.ingredient
  { id := g.id, name := g.name, measurement_unit := g.measurement_unit, amount := ri.amount }

/-- Embeds `RecipeReadSerializer.get_is_favorited`:
`request.user.favorites.filter(recipe=object).exists()` for an
authenticated requester, false for an anonymous one. -/
def get_is_favorited (db : Db) (requester : Option Nat) (obj : Recipe) : Bool :=
  match requester with
  | none => false
  | some u => db.favorites.any (fun f => f.user == u && f.recipe == obj.id)

/-- Embeds `RecipeReadSerializer.get_is_in_shopping_cart`:
`request.user.shopping_cart.filter(recipe=object).exists()` for an
authenticated requester, false for an anonymous one. -/
def get_is_in_shopping_cart (db : Db) (requester : Option Nat) (obj : Recipe) : Bool :=
  match requester with
  | none => false
  | some u => db.shopping_carts.any (fun c => c.user == u && c.recipe == obj.id)

/-- The representation `RecipeReadSerializer` produces (`Meta.fields`: id,
tags, author, ingredients, is_favorited, is_in_shopping_cart, name, image,
text, cooking_time). -/
structure RecipeRepr where
  id : Nat
  tags : List Tag
  author : UserRepr
  ingredients : List IngredientAmountRepr
  is_favorited : Bool
  is_in_shopping_cart : Bool
  name : String
  image : String
  text : String
  cooking_time : Int
deriving Repr, DecidableEq

/-- Embeds `RecipeReadSerializer` serialization of one recipe. -/
def RecipeReadSerializer_data (db : Db) (requester : Option Nat) (obj : Recipe) : RecipeRepr :=
  { id := obj.id
    tags := obj.tags.map (getTag db)
    author := UserSerializer_data db requester (getUser db obj.author)
    ingredients := (recipeIngredientRows db obj.id).map (IngredientRecipeAllSerializer_data db)
    is_favorited := get_is_favorited db requester obj
    is_in_shopping_cart := get_is_in_shopping_cart db requester obj
    name := obj.name
    image := obj.image
    text := obj.text
    cooking_time := obj.cooking_time }

/-- Embeds `RecipeCreateUpdateSerializer.to_representation`: the write
serializer builds its response body by delegating to `RecipeReadSerializer`
with the same context, so a create/update response carries the read
representation of the saved recipe. -/
def RecipeCreateUpdate_to_representation (db : Db) (requester : Option Nat) (obj : Recipe) : RecipeRepr :=
  RecipeReadSerializer_data db requester obj

/-- Embeds the read path `RecipeViewSet.get_serializer_class` selects for a
GET request: `RecipeReadSerializer` applied to the stored recipe. -/
def recipe_GET_representation (db : Db) (requester : Option Nat) (obj : Recipe) : RecipeRepr :=
  RecipeReadSerializer_data db requester obj

/-! ## Action handlers (favorite, shopping_cart, subscribe) -/

/-- The user-visible request failures of the embedded handlers:
`validation` stands for `rest_framework.serializers.ValidationError`,
`notFound` for `get_object_or_404`, `badRequest` for
`django.core.exceptions.BadRequest`. -/
inductive ApiError where
  | validation : String → ApiError
  | notFound : ApiError
  | badRequest : ApiError
deriving Repr, DecidableEq

/-- Embeds `RecipeViewSet.favorite` POST = `add_to(FavoriteSerializer, ...)`:
404 when the recipe does not exist, then
`BaseFavoriteShopingCartSerializer.validate` rejects an existing
(user, recipe) row with the verbose-name conflict message, otherwise
`serializer.save()` inserts the row. -/
def favorite_post (db : Db) (user pk : Nat) : Except ApiError Db :=
  if db.recipes.any (fun r => r.id == pk) then
    if db.favorites.any (fun f => f.user == user && f.recipe == pk) then
      .error (.validation "рецепт из избранного уже добавлен!")
    else
      .ok { db with favorites := db.favorites ++ [{ user := user, recipe := pk }] }
  else .error .notFound

/-- Embeds `RecipeViewSet.favorite` DELETE = `delete_from(FavoriteRecipe, ...)`:
404 when the recipe does not exist, `BadRequest` when no (user, recipe) row
exists, otherwise `.get(...)` fetches the single matching row (unique by
constraint) and `.delete()` removes it; `eraseP` removes that first match. -/
def favorite_delete (db : Db) (user pk : Nat) : Except ApiError Db :=
  if db.recipes.any (fun r => r.id == pk) then
    if db.favorites.any (fun f => f.user == user && f.recipe == pk) then
      .ok { db with favorites := db.favorites.eraseP (fun f => f.user == user && f.recipe == pk) }
    else .error .badRequest
  else .error .notFound

/-- Embeds `RecipeViewSet.shopping_cart` POST =
`add_to(ShoppingCartSerializer, ...)`, as `favorite_post` but on the
`ShoppingCart` table and with its verbose name in the conflict message. -/
def shopping_cart_post (db : Db) (user pk : Nat) : Except ApiError Db :=
  if db.recipes.any (fun r => r.id == pk) then
    if db.shopping_carts.any (fun c => c.user == user && c.recipe == pk) then
      .error (.validation "список покупок уже добавлен!")
    else
      .ok { db with shopping_carts := db.shopping_carts ++ [{ user := user, recipe := pk }] }
  else .error .notFound

/-- Embeds `RecipeViewSet.shopping_cart` DELETE =
`delete_from(ShoppingCart, ...)`. -/
def shopping_cart_delete (db : Db) (user pk : Nat) : Except ApiError Db :=
  if db.recipes.any (fun r => r.id == pk) then
    if db.shopping_carts.any (fun c => c.user == user && c.recipe == pk) then
      .ok { db with shopping_carts := db.shopping_carts.eraseP (fun c => c.user == user && c.recipe == pk) }
    else .error .badRequest
  else .error .notFound

/-- Embeds `BaseUserViewSet.subscribe` POST: `get_object_or_404(User, id=id)`,
then `SubscriptionSerializer` validation in DRF order — the
`UniqueTogetherValidator` of `Meta.validators` first (duplicate
(author, follower) pair), then `SubscriptionSerializer.validate`
(author == follower) — then `serializer.save()` inserts the row.  The
serialization of the response body is modelled separately by
`UserSubscriptionSerializer_data`. -/
def subscribe_post (db : Db) (requester author_id : Nat) : Except ApiError Db :=
  if db.users.any (fun u => u.id == author_id) then
    if db.subscriptions.any (fun s => s.author == author_id && s.follower == requester) then
      .error (.validation "Вы уже подписались на этого пользователя!")
    else if author_id == requester then
      .error (.validation "Невозможно подписаться на самого себя!")
    else
      .ok { db with subscriptions := db.subscriptions ++ [{ follower := requester, author := author_id }] }
  else .error .notFound

/-! ## Cooking-time validation -/

/-- Embeds the explicitly declared serializer field
`cooking_time = serializers.IntegerField(min_value=MIN_COOKING_TIME)` of
`RecipeCreateUpdateSerializer`.  The declared field replaces the one the
`ModelSerializer` would build from the model, so only this `min_value`
check runs on the API write path; `serializer.save()` does not run the
model-level validators.  `recipes_backend/constants.py` defining
`MIN_COOKING_TIME` is not in the tree, so the constant is a parameter. -/
def cooking_time_field_accepts (MIN_COOKING_TIME : Int) (value : Int) : Bool :=
  MIN_COOKING_TIME ≤ value

/-- Embeds the validator list of the model field `Recipe.cooking_time`
(`MinValueValidator(MIN_COOKING_TIME)`, `MaxValueValidator(MAX_COOKING_TIME)`).
These run only under `full_clean()` (e.g. admin forms), never on the API
write path. -/
def cooking_time_model_validators_ok (MIN_COOKING_TIME MAX_COOKING_TIME : Int)
    (value : Int) : Bool :=
  MIN_COOKING_TIME ≤ value && value ≤ MAX_COOKING_TIME

/-! ## Subscription listing (`BaseUserViewSet.subscriptions`) -/

/-- The way serializing a `UserSubscriptionSerializer` instance can blow
up: `valueError` models an uncaught Python `ValueError` (the one
`get_recipes` re-raises). -/
inductive SerializationFailure where
  | valueError : String → SerializationFailure
deriving Repr, DecidableEq

/-- Decimal value of a non-empty all-digit character run, `none` otherwise. -/
def pythonIntDigits (cs : List Char) : Option Nat :=
  if cs.isEmpty then none
  else if cs.all Char.isDigit then
    some (cs.foldl (fun acc c => acc * 10 + (c.toNat - 48)) 0)
  else none

/-- Embeds Python `int(s)` on a string: surrounding whitespace is stripped,
an optional single sign precedes a non-empty digit run.  (CPython also
accepts underscore digit grouping and non-ASCII digits; no claim here
exercises those inputs, so they are left unparsed.) -/
def pythonInt (s : String) : Option Int :=
  let t := ((s.data.dropWhile Char.isWhitespace).reverse.dropWhile Char.isWhitespace).reverse
  match t with
  | [] => none
  | c :: rest =>
    if c = '-' then (pythonIntDigits rest).map (fun n => -(n : Int))
    else if c = '+' then (pythonIntDigits rest).map (fun n => (n : Int))
    else (pythonIntDigits t).map (fun n => (n : Int))

/-- The recipes of one author: the reverse foreign key `obj.recipes.all()`
(`Recipe.Meta.default_related_name = 'recipes'`). -/
def user_recipes (db : Db) (author : Nat) : List Recipe :=
  db.recipes.filter (fun r => r.author == author)

/-- The representation `RecipeInSubscriptionSerializer` (and the identical
`RecipePartialSerializer`) produce: id, name, image, cooking_time. -/
structure RecipeShortRepr where
  id : Nat
  name : String
  image : String
  cooking_time : Int
deriving Repr, DecidableEq

/-- Embeds `RecipeInSubscriptionSerializer` / `RecipePartialSerializer` on
one recipe. -/
def recipe_short_data (r : Recipe) : RecipeShortRepr :=
  { id := r.id, name := r.name, image := r.image, cooking_time := r.cooking_time }

/-- Embeds `UserSubscriptionSerializer.get_recipes`.  `limit` is the raw
`recipes_limit` query-parameter value (`none` when absent).  Python's
`if limit:` is false for the empty string, so an empty value is silently
ignored.  A non-integer value makes `int(limit)` raise `ValueError`, which
the `except ValueError` clause re-raises with the message below; a
negative integer makes the queryset slice `recipes[:int(limit)]` raise
`ValueError` (negative indexing unsupported), which the same clause
catches and re-raises identically. -/
def get_recipes (db : Db) (limit : Option String) (author : Nat) :
    Except SerializationFailure (List RecipeShortRepr) :=
  let recipes := user_recipes db author
  match limit with
  | none => .ok (recipes.map recipe_short_data)
  | some s =>
    if s = "" then .ok (recipes.map recipe_short_data)
    else
      match pythonInt s with
      | none => .error (.valueError "Значение limit должно быть числом!")
      | some n =>
        if n < 0 then .error (.valueError "Значение limit должно быть числом!")
        else .ok ((recipes.take n.toNat).map recipe_short_data)

/-- The representation `UserSubscriptionSerializer` declares
(`Meta.fields`: email, id, username, first_name, last_name,
is_subscribed, recipes, recipes_count, avatar).  `recipes_count` is an
`Option`: `none` means the key is absent from the rendered output (a
skipped field), `some c` that the key is present with value `c`. -/
structure UserSubscriptionRepr where
  email : String
  id : Nat
  username : String
  first_name : String
  last_name : String
  is_subscribed : Bool
  recipes : List RecipeShortRepr
  recipes_count : Option Nat
  avatar : Option String
deriving Repr, DecidableEq

/-- Embeds `UserSubscriptionSerializer` serialization of one author.
`recipes_count = serializers.IntegerField(read_only=True)` reads the
`recipes_count` attribute of the instance; the `User` model has no such
field, so the attribute exists only when the view's queryset annotates it —
`annotated_recipes_count` carries that annotation (`none` when the
queryset did not annotate).  `read_only=True` forces `required=False`,
and DRF's `Field.get_attribute` turns a missing attribute of a
non-required field into `SkipField`, which `Serializer.to_representation`
catches and skips: serialization succeeds and the `recipes_count` key is
silently omitted from the output (`recipes_count := none`).  Fields are
evaluated in `Meta.fields` order, so `get_recipes` runs (and can raise)
first. -/
def UserSubscriptionSerializer_data (db : Db) (requester : Option Nat)
    (annotated_recipes_count : Option Nat) (limit : Option String) (obj : User) :
    Except SerializationFailure UserSubscriptionRepr :=
  match get_recipes db limit obj.id with
  | .error e => .error e
  | .ok rs =>
    .ok { email := obj.email
          id := obj.id
          username := obj.username
          first_name := obj.first_name
          last_name := obj.last_name
          is_subscribed := get_is_subscribed db requester obj
          recipes := rs
          recipes_count := annotated_recipes_count
          avatar := obj.avatar }

/-- Embeds `BaseUserViewSet.subscriptions`: the authors the requester
follows (`User.objects.filter(author__follower=request.user)`), each
serialized by `UserSubscriptionSerializer`.  The queryset carries no
`annotate(...)`, so every serialization receives no `recipes_count`
annotation. -/
def subscriptions_view (db : Db) (requester : Nat) (limit : Option String) :
    Except SerializationFailure (List UserSubscriptionRepr) :=
  let authors := db.users.filter (fun u =>
    db.subscriptions.any (fun s => s.author == u.id && s.follower == requester))
  authors.mapM (fun a => UserSubscriptionSerializer_data db (some requester) none limit a)

/-! ## CSV bulk import (`import_csv`) -/

/-- Embeds `bulk_create(objects, ignore_conflicts=True)` on the
`Ingredient` table: rows are inserted in order and a row that conflicts on
the table's unique column — `Ingredient.name` is declared `unique=True` —
with an already-present row (pre-existing or earlier in the batch) is
skipped. -/
def bulk_create_ignore_conflicts (existing : List Ingredient)
    (objects : List Ingredient) : List Ingredient :=
  objects.foldl (fun acc i =>
    if acc.any (fun j => j.name == i.name) then acc else acc ++ [i]) existing

/-- Embeds `import_csv(Ingredient, path)`: `next(reader)` skips the header
row, each remaining `(name, measurement_unit)` row becomes an `Ingredient`
object (primary keys stand for the database's auto-increment, assigned
past the current maximum), and the batch is inserted with
`ignore_conflicts=True`. -/
def import_csv_ingredients (db : Db) (csvRows : List (String × String)) : Db :=
  let nextId := (db.ingredients.map (fun i => i.id)).foldl max 0 + 1
  let objects := (csvRows.drop 1).enum.map (fun p =>
    { id := nextId + p.1, name := p.2.1, measurement_unit := p.2.2 : Ingredient })
  { db with ingredients := bulk_create_ignore_conflicts db.ingredients objects }

/-- No two `Ingredient` rows share a name (the column is `unique=True`). -/
def ingredientNamesUnique (rows : List Ingredient) : Prop :=
  (rows.map (fun i => i.name)).Nodup

/-- No two `Ingredient` rows share both name and measurement unit. -/
def ingredientPairsUnique (rows : List Ingredient) : Prop :=
  (rows.map (fun i => (i.name, i.measurement_unit))).Nodup

/-! ## Concrete example states -/

/-- The specification's worked example: user 1's cart holds Recipe A
(100 g flour) and Recipe B (50 g flour). -/
def dbFlour : Db :=
  { users := [⟨1, "a@b.c", "u1", "f", "l", none⟩]
    tags := []
    ingredients := [⟨1, "flour", "g"⟩]
    recipes := [⟨10, 1, "A", "img", "t", 5, []⟩, ⟨11, 1, "B", "img", "t", 5, []⟩]
    recipe_ingredients := [⟨10, 1, 100⟩, ⟨11, 1, 50⟩]
    favorites := []
    shopping_carts := [⟨1, 10⟩, ⟨1, 11⟩]
    subscriptions := [] }

/-- A cart whose ingredient rows carry the name "banana" before "apple". -/
def dbFruit : Db :=
  { users := [⟨1, "a@b.c", "u1", "f", "l", none⟩]
    tags := []
    ingredients := [⟨1, "banana", "g"⟩, ⟨2, "apple", "g"⟩]
    recipes := [⟨10, 1, "A", "img", "t", 5, []⟩]
    recipe_ingredients := [⟨10, 1, 2⟩, ⟨10, 2, 3⟩]
    favorites := []
    shopping_carts := [⟨1, 10⟩]
    subscriptions := [] }

/-- A state where user 1 already favorites recipe 10 and has it in the
cart, while user 2 has neither. -/
def dbActions : Db :=
  { users := [⟨1, "a@b.c", "u1", "f", "l", none⟩, ⟨2, "d@b.c", "u2", "f", "l", none⟩]
    tags := []
    ingredients := []
    recipes := [⟨10, 1, "A", "img", "t", 5, []⟩]
    recipe_ingredients := []
    favorites := [⟨1, 10⟩]
    shopping_carts := [⟨1, 10⟩]
    subscriptions := [] }

/-- A state where user 1 follows user 2; author 2 owns recipes 20 and 21
(and the subscription listing for user 1 therefore lists author 2). -/
def dbFollow : Db :=
  { users := [⟨1, "a@b.c", "u1", "f", "l", none⟩, ⟨2, "d@b.c", "u2", "f", "l", none⟩]
    tags := []
    ingredients := []
    recipes := [⟨20, 2, "A", "img", "t", 5, []⟩, ⟨21, 2, "B", "img", "t", 7, []⟩]
    recipe_ingredients := []
    favorites := []
    shopping_carts := []
    subscriptions := [⟨1, 2⟩] }

/-! ## Lemmas about the grouped aggregation -/

theorem groupKeysAux_mem (seen : List (String × String)) (l : List CartValueRow)
    (k : String × String) :
    k ∈ groupKeysAux seen l ↔ k ∉ seen ∧ k ∈ l.map rowKey := by
  induction l generalizing seen with
  | nil => simp [groupKeysAux]
  | cons r rest ih =>
    rw [groupKeysAux]
    by_cases hs : rowKey r ∈ seen
    · rw [if_pos hs, ih]
      simp only [List.map_cons, List.mem_cons]
      constructor
      · rintro ⟨hk, hmem⟩
        exact ⟨hk, Or.inr hmem⟩
      · rintro ⟨hk, (rfl | hmem)⟩
        · exact absurd hs hk
        · exact ⟨hk, hmem⟩
    · rw [if_neg hs]
      simp only [List.mem_cons, ih, List.map_cons]
      constructor
      · rintro (rfl | ⟨hk, hmem⟩)
        · exact ⟨hs, Or.inl rfl⟩
        · exact ⟨fun h => hk (Or.inr h), Or.inr hmem⟩
      · rintro ⟨hk, (rfl | hmem)⟩
        · exact Or.inl rfl
        · by_cases he : k = rowKey r
          · exact Or.inl he
          · exact Or.inr ⟨by simp [he, hk], hmem⟩

theorem groupKeysAux_nodup (seen : List (String × String)) (l : List CartValueRow) :
    (groupKeysAux seen l).Nodup := by
  induction l generalizing seen with
  | nil => simp [groupKeysAux]
  | cons r rest ih =>
    rw [groupKeysAux]
    by_cases hs : rowKey r ∈ seen
    · rw [if_pos hs]; exact ih seen
    · rw [if_neg hs]
      refine List.nodup_cons.2 ⟨?_, ih _⟩
      rw [groupKeysAux_mem]
      rintro ⟨hk, _⟩
      exact hk (List.mem_cons_self _ _)

theorem groupKeysAux_sublist (seen : List (String × String)) (l : List CartValueRow) :
    (groupKeysAux seen l).Sublist (l.map rowKey) := by
  induction l generalizing seen with
  | nil => simp [groupKeysAux]
  | cons r rest ih =>
    rw [groupKeysAux, List.map_cons]
    by_cases hs : rowKey r ∈ seen
    · rw [if_pos hs]; exact (ih seen).trans (List.sublist_cons_self _ _)
    · rw [if_neg hs]; exact List.Sublist.cons₂ _ (ih _)

theorem groupKeys_mem (l : List CartValueRow) (k : String × String) :
    k ∈ groupKeys l ↔ k ∈ l.map rowKey := by
  rw [groupKeys, groupKeysAux_mem]
  simp

theorem groupKeys_nodup (l : List CartValueRow) : (groupKeys l).Nodup :=
  groupKeysAux_nodup [] l

theorem groupKeys_sublist (l : List CartValueRow) : (groupKeys l).Sublist (l.map rowKey) :=
  groupKeysAux_sublist [] l

theorem filter_eq_singleton_of_nodup {α : Type} {l : List α} {a : α} {q : α → Bool}
    (hq : ∀ x, q x = true ↔ x = a) (hn : l.Nodup) (ha : a ∈ l) : l.filter q = [a] := by
  induction l with
  | nil => cases ha
  | cons x xs ih =>
    rcases List.nodup_cons.1 hn with ⟨hx, hxs⟩
    by_cases hxa : x = a
    · subst hxa
      rw [List.filter_cons_of_pos ((hq x).2 rfl)]
      have hnil : xs.filter q = [] := by
        refine List.filter_eq_nil_iff.2 ?_
        intro y hy hqy
        exact hx (((hq y).1 hqy) ▸ hy)
      rw [hnil]
    · have ha2 : a ∈ xs := by
        rcases List.mem_cons.1 ha with h | h
        · exact absurd h.symm hxa
        · exact h
      rw [List.filter_cons_of_neg (fun hqx => hxa ((hq x).1 hqx))]
      exact ih hxs ha2

theorem sumAmount_cartValueRows (db : Db) (user : Nat) (n u : String) :
    sumAmount (cartValueRows db user) n u = cartTotalFor db user n u := by
  unfold sumAmount cartValueRows cartTotalFor
  rw [List.filter_map, List.map_map]
  rfl

theorem download_rows_eq (db : Db) (user : Nat) :
    download_rows db user =
      (groupKeys (cartValueRows db user)).map (fun k =>
        { ingredient__name := k.1
          ingredient__measurement_unit := k.2
          sum := sumAmount (cartValueRows db user) k.1 k.2 }) := rfl

theorem download_rows_keys (db : Db) (user : Nat) :
    (download_rows db user).map
        (fun r => (r.ingredient__name, r.ingredient__measurement_unit)) =
      groupKeys (cartValueRows db user) := by
  rw [download_rows_eq, List.map_map]
  exact List.map_id _

/-! ## Claim theorems -/

/-- C1: for every user, the `download_shopping_cart` export produces, for
each (ingredient name, measurement unit) pair reachable through the user's
shopping cart, exactly one aggregated line whose rendered form is
"name - sum(unit)" and whose sum equals the sum of the `amount` fields of
all `RecipeIngredient` rows belonging to recipes in that user's cart with
that ingredient name and unit; the export is the concatenation of exactly
those lines and has no side effects on the data model. -/
theorem download_shopping_cart_correct (db : Db) (user : Nat) (n u : String)
    (hreach : (n, u) ∈ (cartValueRows db user).map rowKey) :
    (download_rows db user).filter
        (fun r => r.ingredient__name == n && r.ingredient__measurement_unit == u) =
      [{ ingredient__name := n
         ingredient__measurement_unit := u
         sum := cartTotalFor db user n u }] ∧
    (download_shopping_cart db user).1 = String.join ((download_rows db user).map lineOf) ∧
    (download_shopping_cart db user).2 = db := by
  refine ⟨?_, rfl, rfl⟩
  rw [download_rows_eq, List.filter_map]
  have hq : ∀ k : String × String,
      ((fun r : CartAggRow => r.ingredient__name == n && r.ingredient__measurement_unit == u) ∘
        (fun k : String × String =>
          ({ ingredient__name := k.1
             ingredient__measurement_unit := k.2
             sum := sumAmount (cartValueRows db user) k.1 k.2 } : CartAggRow))) k = true ↔
        k = (n, u) := by
    intro k
    simp [Function.comp, Prod.ext_iff]
  rw [filter_eq_singleton_of_nodup hq (groupKeys_nodup _) ((groupKeys_mem _ _).2 hreach)]
  simp [sumAmount_cartValueRows]

/-- Witness for C1 at the specification's own example: the cart of user 1
holds Recipe A (100 g flour) and Recipe B (50 g flour) and the export is
the single line "flour - 150(g)". -/
theorem download_shopping_cart_correct_witness :
    ("flour", "g") ∈ (cartValueRows dbFlour 1).map rowKey ∧
    (download_shopping_cart dbFlour 1).1 = "flour - 150(g)\n" ∧
    cartTotalFor dbFlour 1 "flour" "g" = 150 ∧
    (download_rows dbFlour 1).filter
        (fun r => r.ingredient__name == "flour" && r.ingredient__measurement_unit == "g") =
      [{ ingredient__name := "flour"
         ingredient__measurement_unit := "g"
         sum := cartTotalFor dbFlour 1 "flour" "g" }] ∧
    (download_shopping_cart dbFlour 1).2 = dbFlour := by
  refine ⟨by decide, by decide, by decide, ?_, ?_⟩
  · exact (download_shopping_cart_correct dbFlour 1 "flour" "g" (by decide)).1
  · exact (download_shopping_cart_correct dbFlour 1 "flour" "g" (by decide)).2.2

/-- C8 counterexample: in `dbFruit` the cart rows carry "banana" before
"apple"; the export keeps that order, so its lines are not ordered by
ingredient name ascending. -/
theorem download_lines_not_sorted_cex :
    (download_shopping_cart dbFruit 1).1 = "banana - 2(g)\napple - 3(g)\n" ∧
    ¬ ((download_rows dbFruit 1).map (fun r => r.ingredient__name)).Sorted (· ≤ ·) := by
  have hnames : (download_rows dbFruit 1).map (fun r => r.ingredient__name) =
      ["banana", "apple"] := by decide
  refine ⟨by decide, ?_⟩
  rw [hnames]
  intro h
  have hle : ("banana" : String) ≤ "apple" :=
    List.rel_of_sorted_cons h _ (by simp)
  rw [String.le_iff_toList_le] at hle
  exact absurd hle (by decide)

/-- C8 amended: the `download_shopping_cart` queryset carries no
`order_by` (and `RecipeIngredient.Meta` declares no default ordering), so
the lines are not sorted by name; they appear in the first-occurrence
order of their (name, unit) group among the user's cart rows — the key
sequence of the export is a duplicate-free subsequence of the cart rows'
key sequence that covers exactly the reachable pairs. -/
theorem download_rows_first_occurrence_order (db : Db) (user : Nat) :
    ((download_rows db user).map
        (fun r => (r.ingredient__name, r.ingredient__measurement_unit))).Sublist
      ((cartValueRows db user).map rowKey) ∧
    ((download_rows db user).map
        (fun r => (r.ingredient__name, r.ingredient__measurement_unit))).Nodup ∧
    ∀ k : String × String,
      (k ∈ (download_rows db user).map
          (fun r => (r.ingredient__name, r.ingredient__measurement_unit)) ↔
        k ∈ (cartValueRows db user).map rowKey) := by
  rw [download_rows_keys]
  exact ⟨groupKeys_sublist _, groupKeys_nodup _, groupKeys_mem _⟩

/-- C2: for every valid recipe create or update request, the response body
(`RecipeCreateUpdateSerializer.to_representation`) equals the
read-representation a subsequent GET of that recipe returns
(`get_serializer_class` selects `RecipeReadSerializer` for GET), with the
same database state and the same requesting user — in particular the same
tags, author, ingredients, flags, name, image, text and cooking_time
fields. -/
theorem recipe_write_response_is_read_representation
    (db : Db) (requester : Option Nat) (obj : Recipe) :
    RecipeCreateUpdate_to_representation db requester obj =
      recipe_GET_representation db requester obj := rfl

/-- C9: for every anonymous request, the computed `is_favorited`,
`is_in_shopping_cart` and `is_subscribed` fields of any returned
representation are false, whatever join rows the database holds. -/
theorem anonymous_flags_always_false (db : Db) (r : Recipe) (u : User) :
    (RecipeReadSerializer_data db none r).is_favorited = false ∧
    (RecipeReadSerializer_data db none r).is_in_shopping_cart = false ∧
    (UserSerializer_data db none u).is_subscribed = false :=
  ⟨rfl, rfl, rfl⟩

/-- C3: for every user and existing recipe, POST on the favorite or
shopping_cart action fails with the conflict validation error when the
(user, recipe) join row already exists (leaving the state unchanged,
since an error carries no new state) and otherwise creates exactly that
join row; DELETE fails with `BadRequest` when no such row exists and
otherwise removes exactly that row (the state loses one row). -/
theorem favorite_shopping_cart_add_delete (db : Db) (user pk : Nat)
    (hrec : db.recipes.any (fun r => r.id == pk) = true) :
    (db.favorites.any (fun f => f.user == user && f.recipe == pk) = true →
      favorite_post db user pk = .error (.validation "рецепт из избранного уже добавлен!")) ∧
    (db.favorites.any (fun f => f.user == user && f.recipe == pk) = false →
      favorite_post db user pk =
        .ok { db with favorites := db.favorites ++ [{ user := user, recipe := pk }] }) ∧
    (db.favorites.any (fun f => f.user == user && f.recipe == pk) = true →
      favorite_delete db user pk =
          .ok { db with favorites :=
            db.favorites.eraseP (fun f => f.user == user && f.recipe == pk) } ∧
        (db.favorites.eraseP (fun f => f.user == user && f.recipe == pk)).length + 1 =
          db.favorites.length) ∧
    (db.favorites.any (fun f => f.user == user && f.recipe == pk) = false →
      favorite_delete db user pk = .error .badRequest) ∧
    (db.shopping_carts.any (fun c => c.user == user && c.recipe == pk) = true →
      shopping_cart_post db user pk = .error (.validation "список покупок уже добавлен!")) ∧
    (db.shopping_carts.any (fun c => c.user == user && c.recipe == pk) = false →
      shopping_cart_post db user pk =
        .ok { db with shopping_carts := db.shopping_carts ++ [{ user := user, recipe := pk }] }) ∧
    (db.shopping_carts.any (fun c => c.user == user && c.recipe == pk) = true →
      shopping_cart_delete db user pk =
          .ok { db with shopping_carts :=
            db.shopping_carts.eraseP (fun c => c.user == user && c.recipe == pk) } ∧
        (db.shopping_carts.eraseP (fun c => c.user == user && c.recipe == pk)).length + 1 =
          db.shopping_carts.length) ∧
    (db.shopping_carts.any (fun c => c.user == user && c.recipe == pk) = false →
      shopping_cart_delete db user pk = .error .badRequest) := by
  refine ⟨?_, ?_, ?_, ?_, ?_, ?_, ?_, ?_⟩
  · intro h; rw [favorite_post, if_pos hrec, if_pos h]
  · intro h; rw [favorite_post, if_pos hrec, if_neg (by simp [h])]
  · intro h
    refine ⟨by rw [favorite_delete, if_pos hrec, if_pos h], ?_⟩
    obtain ⟨x, hx, hpx⟩ := List.any_eq_true.1 h
    have hlen := List.length_eraseP_of_mem (p := fun f => f.user == user && f.recipe == pk) hx hpx
    have hpos : 0 < db.favorites.length := List.length_pos_of_mem hx
    omega
  · intro h; rw [favorite_delete, if_pos hrec, if_neg (by simp [h])]
  · intro h; rw [shopping_cart_post, if_pos hrec, if_pos h]
  · intro h; rw [shopping_cart_post, if_pos hrec, if_neg (by simp [h])]
  · intro h
    refine ⟨by rw [shopping_cart_delete, if_pos hrec, if_pos h], ?_⟩
    obtain ⟨x, hx, hpx⟩ := List.any_eq_true.1 h
    have hlen := List.length_eraseP_of_mem (p := fun c => c.user == user && c.recipe == pk) hx hpx
    have hpos : 0 < db.shopping_carts.length := List.length_pos_of_mem hx
    omega
  · intro h; rw [shopping_cart_delete, if_pos hrec, if_neg (by simp [h])]

/-- Witness for C3 in `dbActions`: user 1 holds the join rows for recipe
10 (duplicate POST conflicts, DELETE removes), user 2 holds none (POST
creates, DELETE is a bad request). -/
theorem favorite_shopping_cart_add_delete_witness :
    favorite_post dbActions 1 10 = .error (.validation "рецепт из избранного уже добавлен!") ∧
    favorite_post dbActions 2 10 =
      .ok { dbActions with favorites := dbActions.favorites ++ [{ user := 2, recipe := 10 }] } ∧
    favorite_delete dbActions 1 10 =
      .ok { dbActions with favorites :=
        dbActions.favorites.eraseP (fun f => f.user == 1 && f.recipe == 10) } ∧
    favorite_delete dbActions 2 10 = .error .badRequest ∧
    shopping_cart_post dbActions 1 10 = .error (.validation "список покупок уже добавлен!") ∧
    shopping_cart_post dbActions 2 10 =
      .ok { dbActions with shopping_carts :=
        dbActions.shopping_carts ++ [{ user := 2, recipe := 10 }] } ∧
    shopping_cart_delete dbActions 1 10 =
      .ok { dbActions with shopping_carts :=
        dbActions.shopping_carts.eraseP (fun c => c.user == 1 && c.recipe == 10) } ∧
    shopping_cart_delete dbActions 2 10 = .error .badRequest := by
  have h1 := favorite_shopping_cart_add_delete dbActions 1 10 (by decide)
  have h2 := favorite_shopping_cart_add_delete dbActions 2 10 (by decide)
  exact ⟨h1.1 (by decide), h2.2.1 (by decide), (h1.2.2.1 (by decide)).1,
    h2.2.2.2.1 (by decide), h1.2.2.2.2.1 (by decide), h2.2.2.2.2.2.1 (by decide),
    (h1.2.2.2.2.2.2.1 (by decide)).1, h2.2.2.2.2.2.2.2 (by decide)⟩

/-- C4: for every existing requesting user, subscribing to oneself fails
with a validation error and creates no Subscription row; a duplicate
(follower, author) pair is rejected with the user-facing conflict
message. -/
theorem subscribe_self_and_duplicate_rejected (db : Db) (u a : Nat)
    (hu : db.users.any (fun x => x.id == u) = true)
    (ha : db.users.any (fun x => x.id == a) = true) :
    (∃ msg, subscribe_post db u u = .error (.validation msg)) ∧
    (∀ db2, subscribe_post db u u ≠ .ok db2) ∧
    (db.subscriptions.any (fun s => s.author == a && s.follower == u) = true →
      subscribe_post db u a = .error (.validation "Вы уже подписались на этого пользователя!")) := by
  have hself : ∃ msg, subscribe_post db u u = .error (.validation msg) := by
    by_cases hdup : db.subscriptions.any (fun s => s.author == u && s.follower == u) = true
    · exact ⟨"Вы уже подписались на этого пользователя!",
        by rw [subscribe_post, if_pos hu, if_pos hdup]⟩
    · refine ⟨"Невозможно подписаться на самого себя!", ?_⟩
      rw [subscribe_post, if_pos hu, if_neg hdup, if_pos (by simp)]
  refine ⟨hself, ?_, ?_⟩
  · obtain ⟨msg, hmsg⟩ := hself
    intro db2
    rw [hmsg]
    simp
  · intro hdup
    rw [subscribe_post, if_pos ha, if_pos hdup]

/-- Witness for C4 in `dbFollow`: user 1 exists and follows user 2, so
subscribing to oneself fails validation and re-subscribing to user 2 hits
the duplicate conflict. -/
theorem subscribe_self_and_duplicate_rejected_witness :
    (∃ msg, subscribe_post dbFollow 1 1 = .error (.validation msg)) ∧
    subscribe_post dbFollow 1 2 =
      .error (.validation "Вы уже подписались на этого пользователя!") := by
  have h := subscribe_self_and_duplicate_rejected dbFollow 1 2 (by decide) (by decide)
  exact ⟨h.1, h.2.2 (by decide)⟩

/-- C5 counterexample: the claim "cooking_time is accepted iff it lies
within the configured [min, max] bounds" fails — the serializer field
checks only `min_value`, so at bounds min = 1, max = 100 the value 101 is
accepted although it exceeds the maximum. -/
theorem cooking_time_upper_bound_not_enforced_cex :
    ¬ ∀ (MIN MAX value : Int),
        (cooking_time_field_accepts MIN value = true ↔ MIN ≤ value ∧ value ≤ MAX) := by
  intro h
  have h2 := (h 1 100 101).1 (by decide)
  exact absurd h2.2 (by decide)

/-- C5 amended: on the API write path the cooking_time value is accepted
iff it is at least `MIN_COOKING_TIME`; no upper bound is enforced there
(for every candidate maximum some accepted value exceeds it), the model's
`MaxValueValidator` being declared but never run by `serializer.save()`. -/
theorem cooking_time_accepts_iff_min (MIN value : Int) :
    (cooking_time_field_accepts MIN value = true ↔ MIN ≤ value) ∧
    ∀ MAX : Int, ∃ v : Int, MAX < v ∧ cooking_time_field_accepts MIN v = true := by
  constructor
  · simp [cooking_time_field_accepts]
  · intro MAX
    refine ⟨max MIN MAX + 1, ?_, ?_⟩
    · have := le_max_right MIN MAX
      omega
    · rw [cooking_time_field_accepts, decide_eq_true_eq]
      have := le_max_left MIN MAX
      omega

/-- C6 (code bug): the `recipes_count` field of
`UserSubscriptionSerializer` reads an attribute the `subscriptions`
queryset never annotates and the `User` model does not carry; since the
field is `read_only` (hence non-required), DRF skips it, so every
serialized author is returned WITHOUT a `recipes_count` key — it never
equals the author's total recipe count.  Shown for every state without an
annotation, and concretely for the listing of user 1 in `dbFollow`, whose
followed author 2 owns two recipes: the listing succeeds, `recipes`
truncation works, yet `recipes_count` is absent both with no limit and
with `recipes_limit=1`. -/
theorem subscriptions_recipes_count_omitted :
    (∀ (db : Db) (requester : Option Nat) (obj : User),
      UserSubscriptionSerializer_data db requester none none obj =
        .ok { email := obj.email
              id := obj.id
              username := obj.username
              first_name := obj.first_name
              last_name := obj.last_name
              is_subscribed := get_is_subscribed db requester obj
              recipes := (user_recipes db obj.id).map recipe_short_data
              recipes_count := none
              avatar := obj.avatar }) ∧
    subscriptions_view dbFollow 1 none =
      .ok [{ email := "d@b.c", id := 2, username := "u2", first_name := "f", last_name := "l"
             is_subscribed := true
             recipes := [{ id := 20, name := "A", image := "img", cooking_time := 5 },
                         { id := 21, name := "B", image := "img", cooking_time := 7 }]
             recipes_count := none, avatar := none }] ∧
    subscriptions_view dbFollow 1 (some "1") =
      .ok [{ email := "d@b.c", id := 2, username := "u2", first_name := "f", last_name := "l"
             is_subscribed := true
             recipes := [{ id := 20, name := "A", image := "img", cooking_time := 5 }]
             recipes_count := none, avatar := none }] ∧
    (user_recipes dbFollow 2).length = 2 := by
  exact ⟨fun db requester obj => rfl, rfl, rfl, rfl⟩

theorem bulk_create_names_nodup (objects existing : List Ingredient)
    (h : ingredientNamesUnique existing) :
    ingredientNamesUnique (bulk_create_ignore_conflicts existing objects) := by
  induction objects generalizing existing with
  | nil => exact h
  | cons i rest ih =>
    rw [bulk_create_ignore_conflicts, List.foldl_cons]
    by_cases hc : existing.any (fun j => j.name == i.name) = true
    · rw [if_pos hc]
      exact ih existing h
    · rw [if_neg hc]
      refine ih _ ?_
      unfold ingredientNamesUnique at h ⊢
      rw [List.map_append, List.nodup_append]
      refine ⟨h, List.nodup_singleton _, ?_⟩
      intro x hx hx1
      have hx2 : x = i.name := by simpa using hx1
      obtain ⟨j, hj, hjn⟩ := List.mem_map.1 hx
      rw [Bool.not_eq_true, List.any_eq_false] at hc
      have hfalse := hc j hj
      simp [hjn, hx2] at hfalse

theorem names_nodup_pairs_nodup (rows : List Ingredient)
    (h : ingredientNamesUnique rows) : ingredientPairsUnique rows := by
  unfold ingredientNamesUnique at h
  unfold ingredientPairsUnique
  have hmap : (rows.map (fun i => (i.name, i.measurement_unit))).map Prod.fst =
      rows.map (fun i => i.name) := by
    rw [List.map_map]
    rfl
  refine List.Nodup.of_map Prod.fst ?_
  rw [hmap]
  exact h

/-- C7: no two Ingredient rows share both name and measurement unit, and
the CSV bulk import preserves this: on a state whose ingredient names are
unique (the `unique=True` column constraint, which is stronger than the
claimed pair uniqueness), the import skips every row conflicting on the
unique column, so name uniqueness — and with it (name, unit) pair
uniqueness — still holds afterwards. -/
theorem ingredient_pair_uniqueness_preserved (db : Db) (csvRows : List (String × String))
    (h : ingredientNamesUnique db.ingredients) :
    ingredientPairsUnique db.ingredients ∧
    ingredientNamesUnique (import_csv_ingredients db csvRows).ingredients ∧
    ingredientPairsUnique (import_csv_ingredients db csvRows).ingredients := by
  have h2 : ingredientNamesUnique (import_csv_ingredients db csvRows).ingredients :=
    bulk_create_names_nodup _ _ h
  exact ⟨names_nodup_pairs_nodup _ h, h2, names_nodup_pairs_nodup _ h2⟩

/-- Witness for C7: importing a CSV whose data rows are ("banana", "kg")
— conflicting on the unique name with the stored ("banana", "g") —
("pear", "g") and a duplicate ("pear", "g") into `dbFruit` keeps both
name and (name, unit) uniqueness: the conflicting and duplicate rows are
skipped. -/
theorem ingredient_pair_uniqueness_preserved_witness :
    ingredientNamesUnique dbFruit.ingredients ∧
    ((import_csv_ingredients dbFruit
        [("name", "measurement_unit"), ("banana", "kg"), ("pear", "g"), ("pear", "g")]).ingredients.map
      (fun i => i.name)) = ["banana", "apple", "pear"] ∧
    ingredientPairsUnique (import_csv_ingredients dbFruit
      [("name", "measurement_unit"), ("banana", "kg"), ("pear", "g"), ("pear", "g")]).ingredients := by
  refine ⟨by unfold ingredientNamesUnique; decide, by decide, ?_⟩
  exact (ingredient_pair_uniqueness_preserved dbFruit
    [("name", "measurement_unit"), ("banana", "kg"), ("pear", "g"), ("pear", "g")]
    (by unfold ingredientNamesUnique; decide)).2.2

/-- C10 counterexample: a request carrying `recipes_limit=""` — a value
`int()` cannot parse — does not make serialization raise: Python's
`if limit:` is false for the empty string, so the parameter is silently
ignored and the full recipe list is returned. -/
theorem recipes_limit_empty_string_silently_ignored_cex :
    pythonInt "" = none ∧
    get_recipes dbFollow (some "") 2 =
      .ok ((user_recipes dbFollow 2).map recipe_short_data) ∧
    (get_recipes dbFollow (some "") 2).isOk = true :=
  ⟨rfl, rfl, rfl⟩

/-- C10 amended: a NON-empty `recipes_limit` value that does not parse as
an integer makes serialization raise the limit `ValueError` (an empty
value is silently ignored by `if limit:`); a value parsing to a negative
integer also raises (negative queryset slicing raises `ValueError`, which
the same `except` clause re-raises); for a value parsing to a
non-negative integer n the embedded recipe list is the first n elements
of the author's recipe list. -/
theorem get_recipes_limit_behavior (db : Db) (author : Nat) (s : String) :
    (s ≠ "" → pythonInt s = none →
      get_recipes db (some s) author =
        .error (.valueError "Значение limit должно быть числом!")) ∧
    (∀ n : Int, pythonInt s = some n → 0 ≤ n →
      get_recipes db (some s) author =
        .ok (((user_recipes db author).take n.toNat).map recipe_short_data)) ∧
    (∀ n : Int, pythonInt s = some n → n < 0 →
      get_recipes db (some s) author =
        .error (.valueError "Значение limit должно быть числом!")) := by
  refine ⟨?_, ?_, ?_⟩
  · intro hs hp
    rw [get_recipes, if_neg hs, hp]
  · intro n hp hn
    have hs : s ≠ "" := by
      intro hse
      rw [hse] at hp
      exact Option.noConfusion ((rfl : pythonInt "" = none) ▸ hp)
    rw [get_recipes, if_neg hs, hp]
    dsimp only
    rw [if_neg (by omega)]
  · intro n hp hn
    have hs : s ≠ "" := by
      intro hse
      rw [hse] at hp
      exact Option.noConfusion ((rfl : pythonInt "" = none) ▸ hp)
    rw [get_recipes, if_neg hs, hp]
    dsimp only
    rw [if_pos hn]

/-- Witness for C10 (amended) in `dbFollow`: "abc" raises, "1" truncates
author 2's two recipes to the first one, "-1" raises. -/
theorem get_recipes_limit_behavior_witness :
    ("abc" ≠ "" ∧ pythonInt "abc" = none ∧
      get_recipes dbFollow (some "abc") 2 =
        .error (.valueError "Значение limit должно быть числом!")) ∧
    (pythonInt "1" = some 1 ∧ (0 : Int) ≤ 1 ∧
      get_recipes dbFollow (some "1") 2 =
        .ok (((user_recipes dbFollow 2).take (1 : Int).toNat).map recipe_short_data)) ∧
    (pythonInt "-1" = some (-1) ∧ (-1 : Int) < 0 ∧
      get_recipes dbFollow (some "-1") 2 =
        .error (.valueError "Значение limit должно быть числом!")) := by
  have h1 := get_recipes_limit_behavior dbFollow 2 "abc"
  have h2 := get_recipes_limit_behavior dbFollow 2 "1"
  have h3 := get_recipes_limit_behavior dbFollow 2 "-1"
  exact ⟨⟨by decide, by decide, h1.1 (by decide) (by decide)⟩,
    ⟨by decide, by decide, h2.2.1 1 (by decide) (by decide)⟩,
    ⟨by decide, by decide, h3.2.2 (-1) (by decide) (by decide)⟩⟩

end Gastrogram
